import Mathlib

/-!
Verification of the FLAC-Fixer repository (src/flac_autofix.py).

Shallow embedding conventions:
* a file is a finite byte sequence, `List Nat` (every real byte is below 256;
  the Python bitwise operators on non-negative ints coincide with the Nat
  bitwise operators, so the embedding is total on all of `List Nat`);
* the sequential file handle of `parse_flac` is the pair (data, pos):
  `f.read(n)` returns `(data.drop pos).take n` and advances `pos` by the number
  of bytes actually read, `f.seek(n, 1)` adds `n` to `pos`;
* external effects (soundfile decoding, the ffmpeg / flac / metaflac
  subprocesses, filesystem failures) are oracles packaged in an environment
  record; a Python exception is the record `PyExc` (class name and message);
* `decide_fix` receives the byte thresholds directly (the script computes
  them once as `int(meta_threshold_mb*1024*1024)` and
  `int(max_cover_mb*1024*1024)`), and tool availability as a `Tools` record
  (the script queries `shutil.which`).
-/

namespace FlacFixer

/-- A Python exception value: class name and message text. -/
structure PyExc where
  cls : String
  msg : String
deriving DecidableEq, Repr

/-- One metadata block header, as recorded by `parse_flac` (class MetaBlock). -/
structure MetaBlock where
  type : Nat
  length : Nat
  offset : Nat
  is_last : Bool
deriving DecidableEq, Repr

/-- Decoded STREAMINFO fields (class StreamInfo). -/
structure StreamInfo where
  sample_rate : Nat
  channels : Nat
  bits_per_sample : Nat
  total_samples : Nat
deriving DecidableEq, Repr

/-- Result of one structural scan (class FlacProbe). -/
structure FlacProbe where
  ok : Bool
  reason : String
  is_flac : Bool
  blocks : List MetaBlock
  streaminfo : Option StreamInfo
  total_meta_bytes_with_headers : Nat
  picture_bytes_total : Nat
  unknown_block_count : Nat
  last_block_marked : Bool
deriving DecidableEq, Repr

/-- The four magic bytes b"fLaC". -/
def flac_magic : List Nat := [0x66, 0x4C, 0x61, 0x43]

/-- Decoding of a STREAMINFO payload read by `f.read(34)` (which may be
shorter at end of file, exactly as in Python, where `data[10:18]` of a short
read is a short or empty slice and `int.from_bytes` of it is still defined):
`a = data[10:18]; x = int.from_bytes(a, 'big')` and the four shift/mask
extractions of lines 101-107 of the source. -/
def decode_streaminfo (data : List Nat) : StreamInfo :=
  let a := (data.drop 10).take 8
  let x := a.foldl (fun acc b => acc * 256 + b) 0
  { sample_rate := (x >>> (3 + 5 + 36)) &&& ((1 <<< 20) - 1)
    channels := ((x >>> (5 + 36)) &&& 0b111) + 1
    bits_per_sample := ((x >>> 36) &&& 0b11111) + 1
    total_samples := x &&& ((1 <<< 36) - 1) }

/-- Accumulated outcome of the metadata-block walk of `parse_flac`. -/
structure ScanOut where
  blocks : List MetaBlock
  streaminfo : Option StreamInfo
  total_meta : Nat
  picture_bytes : Nat
  unknown_cnt : Nat
  last_marked : Bool
deriving DecidableEq, Repr

/-- The `while True` loop of `parse_flac` (source lines 84-112).  `pos` is the
file-handle position; the loop stops on a short header read (fewer than 4
bytes remaining) or when the is-last flag is seen.  Python's
`btype not in TYPE_NAMES` is `btype` outside 0..6; the header fields use the
same bitwise operators as the source.  The recursion is paced by `fuel`,
which only bounds the iteration count: every iteration consumes the 4 header
bytes, so any `fuel` with `data.length ≤ pos + 4 * fuel` is enough and the
result is fuel-independent (theorem parse_loop_fuel_irrel); `parse_flac`
passes `data.length`. -/
def parse_loop (data : List Nat) (fuel pos : Nat) (blocks : List MetaBlock)
    (si : Option StreamInfo) (total pic unk : Nat) : ScanOut :=
  if data.length < pos + 4 then
    { blocks := blocks, streaminfo := si, total_meta := total,
      picture_bytes := pic, unknown_cnt := unk, last_marked := false }
  else
    match fuel with
    | 0 =>
      { blocks := blocks, streaminfo := si, total_meta := total,
        picture_bytes := pic, unknown_cnt := unk, last_marked := false }
    | fuel + 1 =>
      let b0 := data.getD pos 0
      let b1 := data.getD (pos + 1) 0
      let b2 := data.getD (pos + 2) 0
      let b3 := data.getD (pos + 3) 0
      let is_last := (b0 &&& 0x80) ≠ 0
      let btype := b0 &&& 0x7F
      let length := (b1 <<< 16) ||| (b2 <<< 8) ||| b3
      let offset := pos
      let blocks' := blocks ++ [⟨btype, length, offset, is_last⟩]
      let total' := total + length + 4
      let pic' := if btype = 6 then pic + length else pic
      let unk' := if btype ∈ ([0, 1, 2, 3, 4, 5, 6] : List Nat) then unk else unk + 1
      if btype = 0 ∧ length = 34 then
        let payload := (data.drop (pos + 4)).take 34
        let si' := some (decode_streaminfo payload)
        if is_last then
          { blocks := blocks', streaminfo := si', total_meta := total',
            picture_bytes := pic', unknown_cnt := unk', last_marked := true }
        else
          parse_loop data fuel (pos + 4 + payload.length) blocks' si' total' pic' unk'
      else
        if is_last then
          { blocks := blocks', streaminfo := si, total_meta := total',
            picture_bytes := pic', unknown_cnt := unk', last_marked := true }
        else
          parse_loop data fuel (pos + 4 + length) blocks' si total' pic' unk'

/-- `parse_flac(path)` (source lines 70-113) on the file's byte content.  A
file whose first four bytes (or fewer) are not b"fLaC" is rejected with all
other fields empty or zero. -/
def parse_flac (data : List Nat) : FlacProbe :=
  if data.take 4 ≠ flac_magic then
    { ok := false, reason := "Not native FLAC (missing fLaC magic)",
      is_flac := false, blocks := [], streaminfo := none,
      total_meta_bytes_with_headers := 0, picture_bytes_total := 0,
      unknown_block_count := 0, last_block_marked := false }
  else
    let out := parse_loop data data.length 4 [] none 0 0 0
    { ok := true, reason := "OK", is_flac := true, blocks := out.blocks,
      streaminfo := out.streaminfo,
      total_meta_bytes_with_headers := out.total_meta,
      picture_bytes_total := out.picture_bytes,
      unknown_block_count := out.unknown_cnt,
      last_block_marked := out.last_marked }

/-- Renders the exact rational num/den (den a power of two, so the Python
float value is exact) rounded to one decimal place with round-half-to-even,
as Python's "%.1f" formatting does. -/
def format_one_decimal (num den : Nat) : String :=
  let t := num * 10
  let q := t / den
  let r := t % den
  let q' := if den < 2 * r ∨ (2 * r = den ∧ q % 2 = 1) then q + 1 else q
  toString (q' / 10) ++ "." ++ toString (q' % 10)

/-- `human_bytes(n)` (source lines 32-38): the B/KB/MB/GB loop.  `v = n/1024^k`
is exactly representable as a float (power-of-two division only changes the
exponent), so the `v < 1024` tests are `n < 1024^(k+1)` and the "%.1f"
rendering is the exact-rational rounding of `format_one_decimal`. -/
def human_bytes (n : Nat) : String :=
  if n < 1024 then toString n ++ "B"
  else if n < 1024 * 1024 then format_one_decimal n 1024 ++ "KB"
  else if n < 1024 * 1024 * 1024 then format_one_decimal n (1024 * 1024) ++ "MB"
  else format_one_decimal n (1024 * 1024 * 1024) ++ "GB"

/-- Reason text appended when decoding failed (source line 144). -/
def reason_decode : String := "解码失败/播放器拒绝播放"

/-- Reason text for unknown metadata blocks (source line 146). -/
def reason_unknown_blocks (n : Nat) : String :=
  "存在 UNKNOWN 元数据块: " ++ toString n ++ " 个"

/-- Reason text for an unterminated metadata chain (source line 148). -/
def reason_no_terminator : String := "元数据未标记终止 is_last=false"

/-- Reason text for oversized metadata (source line 150). -/
def reason_meta_oversize (n : Nat) : String := "元数据过大: " ++ human_bytes n

/-- Reason text for oversized cover art (source line 152). -/
def reason_cover_oversize (n cap : Nat) : String :=
  "封面过大: " ++ human_bytes n ++ " > " ++ human_bytes cap

/-- Availability of the three external tools, the result of the
`shutil.which` queries made by `decide_fix`. -/
structure Tools where
  ffmpeg : Bool
  flac : Bool
  metaflac : Bool
deriving DecidableEq, Repr

/-- Python's substring membership `needle in hay` on char lists. -/
def contains_chars (needle : List Char) : List Char → Bool
  | [] => needle.isEmpty
  | c :: rest => needle.isPrefixOf (c :: rest) || contains_chars needle rest

/-- Python's `needle in hay` for strings. -/
def py_substr_mem (needle hay : String) : Bool :=
  contains_chars needle.data hay.data

/-- Decision output (class FixPlan). -/
structure FixPlan where
  needs_fix : Bool
  reasons : List String
  action : String
  keep_cover : Bool
deriving DecidableEq, Repr

/-- `decide_fix` (source lines 141-170).  The five anomaly checks append
their reason texts in source order; `needs_fix = len(reasons) > 0`; the
action is chosen from the available tools with the cover-oversize override of
line 164; `keep_cover` is downgraded when the cover exceeds the cap.
`meta_threshold_bytes` stands for the source's
`int(meta_threshold_mb*1024*1024)`. -/
def decide_fix (probe : FlacProbe) (decode_ok : Bool) (keep_cover : Bool)
    (meta_threshold_bytes : Nat) (max_cover_bytes : Nat) (tools : Tools) :
    FixPlan :=
  let reasons : List String := []
  let reasons := if decode_ok = false then reasons ++ [reason_decode] else reasons
  let reasons := if 0 < probe.unknown_block_count then
      reasons ++ [reason_unknown_blocks probe.unknown_block_count] else reasons
  let reasons := if probe.last_block_marked = false then
      reasons ++ [reason_no_terminator] else reasons
  let reasons := if meta_threshold_bytes < probe.total_meta_bytes_with_headers then
      reasons ++ [reason_meta_oversize probe.total_meta_bytes_with_headers] else reasons
  let reasons := if max_cover_bytes < probe.picture_bytes_total then
      reasons ++ [reason_cover_oversize probe.picture_bytes_total max_cover_bytes]
      else reasons
  let needs_fix := decide (0 < reasons.length)
  let action :=
    if needs_fix then
      if tools.ffmpeg then "ffmpeg"
      else if tools.flac then "flac"
      else if tools.metaflac then "metaflac"
      else "skip"
    else "skip"
  let action :=
    if needs_fix && py_substr_mem "封面过大" (String.intercalate " " reasons)
        && tools.metaflac && !tools.ffmpeg && !tools.flac then
      "metaflac"
    else action
  let keep_cover :=
    if keep_cover && decide (max_cover_bytes < probe.picture_bytes_total) then
      false
    else keep_cover
  { needs_fix := needs_fix, reasons := reasons, action := action,
    keep_cover := keep_cover }

/-- The external world seen by `process_one`, as oracles over file bytes.
Each subprocess-backed operation returns `Except PyExc _` so a launch failure
(or any OSError) is a raised exception; its normal value carries the exit
status and the bytes it produced.  `decode` is `soundfile_decode_ok` as a
function of the decoded file's bytes (it catches its own exceptions and
returns a pair, source lines 117-130).  `open_exc` / `backup_exc` /
`replace_exc`, when set, are the exceptions raised by `path.open`, by the
backup mkdir/copy, and by `atomic_replace`. -/
structure Env where
  tools : Tools
  decode : List Nat → Bool × String
  open_exc : Option PyExc
  backup_exc : Option PyExc
  replace_exc : Option PyExc
  ffmpeg_run : List Nat → Except PyExc (Bool × Option (List Nat))
  flac_run : List Nat → Except PyExc (Bool × Option (List Nat))
  metaflac_strip : List Nat → Except PyExc (Bool × List Nat)
  cover_export : List Nat → Except PyExc (Option (List Nat))
  cover_import : List Nat → List Nat → Except PyExc (Bool × List Nat)

/-- The argument fields consulted by `process_one`.  The two thresholds are
the byte values the script computes from the MB-valued flags. -/
structure Args where
  keep_cover : Bool
  dry_run : Bool
  backup : Bool
  meta_threshold_bytes : Nat
  max_cover_bytes : Nat
deriving DecidableEq, Repr

/-- The per-file outcome record built by `process_one`. -/
structure PResult where
  status : String
  reasons : String
  action : String
  message : String
deriving DecidableEq, Repr

/-- The plan `process_one` computes for a file (source line 252). -/
def planOf (env : Env) (args : Args) (orig : List Nat) : FixPlan :=
  decide_fix (parse_flac orig) (env.decode orig).1 args.keep_cover
    args.meta_threshold_bytes args.max_cover_bytes env.tools

/-- Source lines 288-302: the common tail of the two re-encode actions, from
the `not ok or not out_tmp.exists()` check through cover re-import,
post-repair verification and the atomic replacement.  Returns the normal or
exceptional result together with the bytes of the original file, which are
only changed by the final replacement. -/
def after_reencode (env : Env) (plan : FixPlan) (r1 : PResult)
    (orig : List Nat) (cover_tmp : Option (List Nat)) (ok : Bool)
    (cand? : Option (List Nat)) : Except (PyExc × PResult) PResult × List Nat :=
  match cand?, ok with
  | none, _ =>
      (.ok { r1 with status := "FAIL", message := plan.action ++ " 生成失败" }, orig)
  | some _, false =>
      (.ok { r1 with status := "FAIL", message := plan.action ++ " 生成失败" }, orig)
  | some cand, true =>
      match (if plan.keep_cover && cover_tmp.isSome && env.tools.metaflac then
              env.cover_import cand (cover_tmp.getD []) else .ok (true, cand)) with
      | .error e => (.error (e, r1), orig)
      | .ok (iok, cand2) =>
          let r2 := if iok then r1
            else { r1 with message := r1.message ++ "（封面导入失败）" }
          let d2 := env.decode cand2
          if d2.1 = false then
            (.ok { r2 with status := "FAIL", message := "修复后验证失败: " ++ d2.2 }, orig)
          else
            match env.replace_exc with
            | some e => (.error (e, r2), orig)
            | none =>
                (.ok { r2 with status := "FIXED", message := "完成 " ++ plan.action ++ " 修复并验证成功" }, cand2)

/-- The body of `process_one`'s `try` block (source lines 247-302), with a
raised exception returned as `.error (exception, result-so-far)` since the
`except` clause reuses the partially filled result record.  The second
component is the byte content of the processed file on exit. -/
def process_one_body (env : Env) (args : Args) (orig : List Nat) :
    Except (PyExc × PResult) PResult × List Nat :=
  let r0 : PResult := { status := "SKIP", reasons := "", action := "", message := "" }
  match env.open_exc with
  | some e => (.error (e, r0), orig)
  | none =>
    let probe := parse_flac orig
    if probe.is_flac = false then
      (.ok { r0 with status := "SKIP", message := probe.reason }, orig)
    else
      let dec := env.decode orig
      let plan := decide_fix probe dec.1 args.keep_cover
        args.meta_threshold_bytes args.max_cover_bytes env.tools
      let r1 := { r0 with
        reasons := if plan.reasons.isEmpty then "（无）"
          else String.intercalate "; " plan.reasons,
        action := plan.action }
      if plan.needs_fix = false then
        (.ok { r1 with status := "OK", message := dec.2 }, orig)
      else if args.dry_run then
        (.ok { r1 with status := "DRYRUN", message := "将执行: " ++ plan.action }, orig)
      else
        match (if args.backup then env.backup_exc else none) with
        | some e => (.error (e, r1), orig)
        | none =>
          match (if plan.keep_cover && env.tools.metaflac then
                  env.cover_export orig else .ok none) with
          | .error e => (.error (e, r1), orig)
          | .ok cover_tmp =>
            if plan.action = "ffmpeg" then
              match env.ffmpeg_run orig with
              | .error e => (.error (e, r1), orig)
              | .ok (ok, cand?) => after_reencode env plan r1 orig cover_tmp ok cand?
            else if plan.action = "flac" then
              match env.flac_run orig with
              | .error e => (.error (e, r1), orig)
              | .ok (ok, cand?) => after_reencode env plan r1 orig cover_tmp ok cand?
            else if plan.action = "metaflac" then
              match env.metaflac_strip orig with
              | .error e => (.error (e, r1), orig)
              | .ok (ok, newBytes) =>
                if ok then
                  let d2 := env.decode newBytes
                  (.ok { r1 with
                         status := if d2.1 then "FIXED" else "FAIL",
                         message := if d2.1 then "metaflac 清空元数据后验证"
                           else "metaflac 清空后仍不可读" }, newBytes)
                else
                  (.ok { r1 with status := "FAIL", message := plan.action ++ " 生成失败" }, newBytes)
            else
              (.ok { r1 with status := "FAIL", message := "无可用修复工具（请安装 ffmpeg 或 flac）" }, orig)

/-- `process_one` (source lines 245-306): the `try` body plus the catch-all
`except Exception` clause, which stamps the partially built record with
status ERROR and the exception's class name and message. -/
def process_one (env : Env) (args : Args) (orig : List Nat) :
    PResult × List Nat :=
  match process_one_body env args orig with
  | (.ok r, s) => (r, s)
  | (.error (e, r), s) =>
      ({ r with status := "ERROR", message := e.cls ++ ": " ++ e.msg }, s)

/-- Filesystem state relevant to `atomic_replace`: the temp file `src`, the
target `dst`, and the `.old` sibling `bak`; `none` means the path does not
exist, `some bytes` its content. -/
structure AFS where
  src : Option (List Nat)
  dst : Option (List Nat)
  bak : Option (List Nat)
deriving DecidableEq, Repr

/-- Failure injection for the filesystem primitives used by `atomic_replace`:
each field, when set, is the exception that primitive raises (the primitive
then has no effect).  `os.replace` with a missing source always raises
FileNotFoundError regardless of injection. -/
structure AEnv where
  unlink_dst_exc : Option PyExc
  os_replace_exc : Option PyExc
  rename_aside_exc : Option PyExc
  move_exc : Option PyExc
  bak_unlink_exc : Option PyExc
  restore_exc : Option PyExc
deriving DecidableEq, Repr

/-- The FileNotFoundError forced by renaming a non-existent source. -/
def fnf_exc : PyExc := { cls := "FileNotFoundError", msg := "No such file or directory" }

/-- Source lines 235-241: the inner `except` of the fallback — if the target
is gone and the `.old` sibling exists, try to rename it back (errors
swallowed), then re-raise. -/
def ar_inner_fail (env : AEnv) (e : PyExc) (fs : AFS) : Except PyExc Unit × AFS :=
  if fs.dst = none ∧ fs.bak ≠ none then
    match env.restore_exc with
    | some _ => (.error e, fs)
    | none => (.error e, { fs with dst := fs.bak, bak := none })
  else (.error e, fs)

/-- Source lines 229-234: `shutil.move(src, dst)` followed by best-effort
removal of the `.old` sibling (its failure is swallowed). -/
def ar_move (env : AEnv) (fs1 : AFS) : Except PyExc Unit × AFS :=
  match env.move_exc with
  | some e2 => ar_inner_fail env e2 fs1
  | none =>
    match fs1.src with
    | none => ar_inner_fail env fnf_exc fs1
    | some b =>
      let fs2 : AFS := { src := none, dst := some b, bak := fs1.bak }
      if fs2.bak.isSome then
        match env.bak_unlink_exc with
        | some _ => (.ok (), fs2)
        | none => (.ok (), { fs2 with bak := none })
      else (.ok (), fs2)

/-- Source lines 225-241: the `except PermissionError` fallback — rename the
existing target aside to `.old`, move the temp into place, drop the `.old`
sibling; on any inner failure, attempt restoration and re-raise. -/
def ar_fallback (env : AEnv) (fs0 : AFS) : Except PyExc Unit × AFS :=
  if fs0.dst.isSome then
    match env.rename_aside_exc with
    | some e2 => ar_inner_fail env e2 fs0
    | none => ar_move env { src := fs0.src, dst := none, bak := fs0.dst }
  else ar_move env fs0

/-- Source line 223: `src.replace(dst)` (os.replace).  An injected
PermissionError diverts to the fallback; a missing source forces
FileNotFoundError, which `except PermissionError` does not catch. -/
def ar_os_replace (env : AEnv) (fs1 : AFS) : Except PyExc Unit × AFS :=
  match env.os_replace_exc with
  | some e => if e.cls = "PermissionError" then ar_fallback env fs1 else (.error e, fs1)
  | none =>
    match fs1.src with
    | none => (.error fnf_exc, fs1)
    | some b => (.ok (), { src := none, dst := some b, bak := fs1.bak })

/-- `atomic_replace(src, dst)` (source lines 218-241): delete an existing
target, then rename the temp over it; a PermissionError from either step
enters the `.old` fallback dance. -/
def atomic_replace (env : AEnv) (fs0 : AFS) : Except PyExc Unit × AFS :=
  if fs0.dst.isSome then
    match env.unlink_dst_exc with
    | some e => if e.cls = "PermissionError" then ar_fallback env fs0 else (.error e, fs0)
    | none => ar_os_replace env { fs0 with dst := none }
  else ar_os_replace env fs0

/-- Big-endian re-encoding of the packed STREAMINFO field group into one
64-bit word.  Modelled from the spec: the source has no encoder; this
follows the fixed FLAC STREAMINFO layout named by the spec (20-bit sample
rate, 3-bit channels-1, 5-bit bits-per-sample-1, 36-bit total samples). -/
def encode_streaminfo_fields (si : StreamInfo) : Nat :=
  si.sample_rate * 2 ^ 44 + (si.channels - 1) * 2 ^ 41 +
    (si.bits_per_sample - 1) * 2 ^ 36 + si.total_samples

/-- Big-endian 8-byte rendering of a 64-bit word, the inverse of the
`int.from_bytes(a, 'big')` read of the 8-byte packed region. -/
def to_bytes_be_8 (x : Nat) : List Nat :=
  [x / 2 ^ 56 % 256, x / 2 ^ 48 % 256, x / 2 ^ 40 % 256, x / 2 ^ 32 % 256,
   x / 2 ^ 24 % 256, x / 2 ^ 16 % 256, x / 2 ^ 8 % 256, x % 256]

/-- The slice `data[10:18]` taken by `parse_flac` from a STREAMINFO payload:
the packed-field region that is actually decoded. -/
def packed_region (data : List Nat) : List Nat := (data.drop 10).take 8

/-- A four-byte RIFF file: not native FLAC. -/
def file_riff : List Nat := [0x52, 0x49, 0x46, 0x46]

/-- A minimal well-formed chain: magic plus a single is-last PADDING block. -/
def file_min : List Nat := flac_magic ++ [0x81, 0, 0, 0]

/-- Magic only, no metadata block: the chain is unterminated (an anomaly). -/
def file_unterminated : List Nat := flac_magic

/-- Magic, a PADDING first block, then an is-last 34-byte STREAMINFO block:
the first block is not a STREAMINFO yet one is decoded. -/
def file_padding_then_si : List Nat :=
  flac_magic ++ [1, 0, 0, 0] ++ [0x80, 0, 0, 34] ++ List.replicate 34 0

/-- Default argument fixture: no cover keeping, no dry-run, no backup,
8 MB metadata threshold, 1.5 MB cover cap. -/
def args_fix : Args :=
  { keep_cover := false, dry_run := false, backup := false,
    meta_threshold_bytes := 8388608, max_cover_bytes := 1572864 }

/-- Environment for the strip-action counterexample: only metaflac is
installed, stripping succeeds and empties the file, and the emptied file no
longer decodes. -/
def env_strip_cex : Env :=
  { tools := { ffmpeg := false, flac := false, metaflac := true }
    decode := fun bs => if bs.isEmpty then (false, "DECODE_FAIL (soundfile): LibsndfileError: x") else (true, "OK (soundfile)")
    open_exc := none, backup_exc := none, replace_exc := none
    ffmpeg_run := fun _ => .ok (false, none)
    flac_run := fun _ => .ok (false, none)
    metaflac_strip := fun _ => .ok (true, [])
    cover_export := fun _ => .ok none
    cover_import := fun c _ => .ok (true, c) }

/-- Environment for the re-encode witness: ffmpeg is installed and produces
a candidate that fails the post-repair decode check. -/
def env_ffmpeg_w : Env :=
  { tools := { ffmpeg := true, flac := false, metaflac := false }
    decode := fun bs => if bs = [9] then (false, "DECODE_FAIL (soundfile): LibsndfileError: y") else (true, "OK (soundfile)")
    open_exc := none, backup_exc := none, replace_exc := none
    ffmpeg_run := fun _ => .ok (true, some [9])
    flac_run := fun _ => .ok (false, none)
    metaflac_strip := fun bs => .ok (false, bs)
    cover_export := fun _ => .ok none
    cover_import := fun c _ => .ok (true, c) }

/-- Environment whose file open raises: exercises the catch-all clause. -/
def env_open_fails : Env :=
  { env_strip_cex with open_exc := some { cls := "OSError", msg := "boom" } }

/-- A 34-byte all-zero STREAMINFO payload. -/
def payload_zero : List Nat := List.replicate 34 0

/-- A 34-byte STREAMINFO payload differing from payload_zero only in byte 0
(inside the first 18 bytes, outside the decoded 8-byte region). -/
def payload_one : List Nat := 1 :: List.replicate 33 0

/-- Failure-free injection environment: every filesystem primitive
succeeds. -/
def aenv_quiet : AEnv :=
  { unlink_dst_exc := none, os_replace_exc := none, rename_aside_exc := none,
    move_exc := none, bak_unlink_exc := none, restore_exc := none }

/-- A probe whose only anomaly is oversized cover art: structurally clean,
terminated chain, no unknown blocks, small metadata, big pictures. -/
def probe_cover : FlacProbe :=
  { ok := true, reason := "OK", is_flac := true, blocks := [],
    streaminfo := none, total_meta_bytes_with_headers := 0,
    picture_bytes_total := 2000000, unknown_block_count := 0,
    last_block_marked := true }

/-- Fuel is only pacing: every iteration of the metadata walk consumes at
least the 4 header bytes, so any fuel with `data.length ≤ pos + 4 * fuel`
yields the same result.  This is the well-foundedness of the walk. -/
theorem parse_loop_fuel_irrel (data : List Nat) :
    ∀ fuel fuel' pos blocks si total pic unk,
      data.length ≤ pos + 4 * fuel → data.length ≤ pos + 4 * fuel' →
      parse_loop data fuel pos blocks si total pic unk =
        parse_loop data fuel' pos blocks si total pic unk := by
  intro fuel
  induction fuel with
  | zero =>
    intro fuel' pos blocks si total pic unk h h'
    have hc : data.length < pos + 4 := by omega
    rw [parse_loop.eq_def, parse_loop.eq_def, if_pos hc, if_pos hc]
  | succ f ih =>
    intro fuel' pos blocks si total pic unk h h'
    by_cases hc : data.length < pos + 4
    · rw [parse_loop.eq_def, parse_loop.eq_def, if_pos hc, if_pos hc]
    · cases fuel' with
      | zero => omega
      | succ f' =>
        rw [parse_loop.eq_def, parse_loop.eq_def, if_neg hc, if_neg hc]
        simp only
        split_ifs <;> first
          | rfl
          | · apply ih <;> omega

/-- Every parsed block costs at least its 4 header bytes, so the number of
blocks the walk can append is bounded by the bytes past the current
position. -/
theorem parse_loop_blocks_bound (data : List Nat) (fuel pos : Nat)
    (blocks : List MetaBlock) (si : Option StreamInfo) (total pic unk : Nat) :
    4 * (parse_loop data fuel pos blocks si total pic unk).blocks.length + min pos data.length ≤
      4 * blocks.length + data.length := by
  refine parse_loop.induct data
    (fun fuel pos blocks si total pic unk =>
      4 * (parse_loop data fuel pos blocks si total pic unk).blocks.length + min pos data.length ≤
        4 * blocks.length + data.length)
    ?_ ?_ ?_ ?_ ?_ ?_ fuel pos blocks si total pic unk
  · intro t pos blocks si total pic unk h
    rw [parse_loop.eq_def, if_pos h]
    simp only
    omega
  · intro pos blocks si total pic unk h
    rw [parse_loop.eq_def, if_neg h]
    simp only
    omega
  · intro pos blocks si total pic unk h fuel
    simp only []
    intro hsi hl
    rw [parse_loop.eq_def, if_neg h]
    simp only [if_pos hsi, if_pos hl, List.length_append, List.length_cons, List.length_nil]
    omega
  · intro pos blocks si total pic unk h fuel
    simp only []
    intro hsi hnl ih
    rw [parse_loop.eq_def, if_neg h]
    simp only [if_pos hsi, if_neg hnl]
    simp only [List.length_append, List.length_cons, List.length_nil] at ih ⊢
    omega
  · intro pos blocks si total pic unk h fuel
    simp only []
    intro hsi hl
    rw [parse_loop.eq_def, if_neg h]
    simp only [if_neg hsi, if_pos hl, List.length_append, List.length_cons, List.length_nil]
    omega
  · intro pos blocks si total pic unk h fuel
    simp only []
    intro hsi hnl ih
    rw [parse_loop.eq_def, if_neg h]
    simp only [if_neg hsi, if_neg hnl]
    simp only [List.length_append, List.length_cons, List.length_nil] at ih ⊢
    omega

/-- The walk only appends blocks, and the streaminfo slot is filled exactly
when a type-0 block of payload length 34 is appended (any such block, not
only the first). -/
theorem parse_loop_streaminfo_iff (data : List Nat) (fuel pos : Nat)
    (blocks : List MetaBlock) (si : Option StreamInfo) (total pic unk : Nat) :
    ∃ suffix, (parse_loop data fuel pos blocks si total pic unk).blocks = blocks ++ suffix ∧
      ((parse_loop data fuel pos blocks si total pic unk).streaminfo.isSome = true ↔
        si.isSome = true ∨ ∃ b ∈ suffix, b.type = 0 ∧ b.length = 34) := by
  refine parse_loop.induct data
    (fun fuel pos blocks si total pic unk =>
      ∃ suffix, (parse_loop data fuel pos blocks si total pic unk).blocks = blocks ++ suffix ∧
        ((parse_loop data fuel pos blocks si total pic unk).streaminfo.isSome = true ↔
          si.isSome = true ∨ ∃ b ∈ suffix, b.type = 0 ∧ b.length = 34))
    ?_ ?_ ?_ ?_ ?_ ?_ fuel pos blocks si total pic unk
  · intro t pos blocks si total pic unk h
    rw [parse_loop.eq_def, if_pos h]
    exact ⟨[], by simp⟩
  · intro pos blocks si total pic unk h
    rw [parse_loop.eq_def, if_neg h]
    exact ⟨[], by simp⟩
  · intro pos blocks si total pic unk h fuel
    simp only []
    intro hsi hl
    rw [parse_loop.eq_def, if_neg h]
    simp only [if_pos hsi, if_pos hl]
    refine ⟨_, rfl, ?_⟩
    simp only [Option.isSome_some, true_iff]
    refine Or.inr ⟨_, List.mem_singleton_self _, ?_, ?_⟩
    · simpa [List.getD_eq_getElem?_getD] using hsi.1
    · simpa [List.getD_eq_getElem?_getD] using hsi.2
  · intro pos blocks si total pic unk h fuel
    simp only []
    intro hsi hnl ih
    rw [parse_loop.eq_def, if_neg h]
    simp only [if_pos hsi, if_neg hnl]
    obtain ⟨suffix, hb, hiff⟩ := ih
    refine ⟨_ :: suffix, by simpa [List.append_assoc] using hb, ?_⟩
    rw [hiff]
    constructor
    · intro _
      refine Or.inr ⟨_, List.mem_cons_self _ _, ?_, ?_⟩
      · simpa [List.getD_eq_getElem?_getD] using hsi.1
      · simpa [List.getD_eq_getElem?_getD] using hsi.2
    · intro _
      exact Or.inl (by simp)
  · intro pos blocks si total pic unk h fuel
    simp only []
    intro hsi hl
    rw [parse_loop.eq_def, if_neg h]
    simp only [if_neg hsi, if_pos hl]
    refine ⟨_, rfl, ?_⟩
    constructor
    · exact fun hs => Or.inl hs
    · rintro (hs | ⟨b, hbmem, hbp⟩)
      · exact hs
      · rcases List.mem_singleton.mp hbmem with rfl
        refine absurd ?_ hsi
        constructor
        · simpa [List.getD_eq_getElem?_getD] using hbp.1
        · simpa [List.getD_eq_getElem?_getD] using hbp.2
  · intro pos blocks si total pic unk h fuel
    simp only []
    intro hsi hnl ih
    rw [parse_loop.eq_def, if_neg h]
    simp only [if_neg hsi, if_neg hnl]
    obtain ⟨suffix, hb, hiff⟩ := ih
    refine ⟨_ :: suffix, by simpa [List.append_assoc] using hb, ?_⟩
    rw [hiff]
    constructor
    · rintro (hs | ⟨b, hbmem, hbp⟩)
      · exact Or.inl hs
      · exact Or.inr ⟨b, List.mem_cons_of_mem _ hbmem, hbp⟩
    · rintro (hs | ⟨b, hbmem, hbp⟩)
      · exact Or.inl hs
      · rcases List.mem_cons.mp hbmem with rfl | hbmem'
        · refine absurd ?_ hsi
          constructor
          · simpa [List.getD_eq_getElem?_getD] using hbp.1
          · simpa [List.getD_eq_getElem?_getD] using hbp.2
        · exact Or.inr ⟨b, hbmem', hbp⟩

/-- C7: for a file whose first four bytes are not the ASCII magic fLaC, the
probe has is_flac false, carries the rejection reason, and every other field
is empty or zero — the result is a constant record, so no byte beyond the
first four influences it — and process_one finishes with terminal status
SKIP, leaving the file bytes unchanged. -/
theorem not_flac_probe_and_skip (env : Env) (args : Args) (data : List Nat)
    (h : data.take 4 ≠ flac_magic) (hopen : env.open_exc = none) :
    parse_flac data = { ok := false, reason := "Not native FLAC (missing fLaC magic)", is_flac := false, blocks := [], streaminfo := none, total_meta_bytes_with_headers := 0, picture_bytes_total := 0, unknown_block_count := 0, last_block_marked := false } ∧
    (process_one env args data).1.status = "SKIP" ∧
    (process_one env args data).2 = data := by
  have hp : parse_flac data = { ok := false, reason := "Not native FLAC (missing fLaC magic)", is_flac := false, blocks := [], streaminfo := none, total_meta_bytes_with_headers := 0, picture_bytes_total := 0, unknown_block_count := 0, last_block_marked := false } := by
    unfold parse_flac
    rw [if_pos h]
  refine ⟨hp, ?_, ?_⟩ <;>
    simp [process_one, process_one_body, hopen, hp]

/-- Closed witness for not_flac_probe_and_skip at the RIFF scenario file. -/
theorem not_flac_probe_and_skip_witness :
    (process_one env_strip_cex args_fix file_riff).1.status = "SKIP" ∧
    (process_one env_strip_cex args_fix file_riff).2 = file_riff :=
  ⟨(not_flac_probe_and_skip env_strip_cex args_fix file_riff (by decide) rfl).2.1,
   (not_flac_probe_and_skip env_strip_cex args_fix file_riff (by decide) rfl).2.2⟩

/-- C6: process_one never propagates an exception — whatever the try body
produces, process_one returns a record: a raised exception is mapped to
status ERROR with the exception's class name and message on the partially
built record, and a normal result is passed through. -/
theorem process_one_never_propagates (env : Env) (args : Args) (orig : List Nat) :
    (∀ e r s, process_one_body env args orig = (.error (e, r), s) →
      process_one env args orig = ({ r with status := "ERROR", message := e.cls ++ ": " ++ e.msg }, s)) ∧
    (∀ r s, process_one_body env args orig = (.ok r, s) →
      process_one env args orig = (r, s)) := by
  constructor
  · intro e r s h
    unfold process_one
    rw [h]
  · intro r s h
    unfold process_one
    rw [h]

/-- Closed witness for process_one_never_propagates: a file open that raises
OSError is recorded as ERROR with the class name and message. -/
theorem process_one_never_propagates_witness :
    process_one env_open_fails args_fix file_unterminated =
      ({ status := "ERROR", reasons := "", action := "", message := "OSError: boom" }, file_unterminated) :=
  (process_one_never_propagates env_open_fails args_fix file_unterminated).1
    { cls := "OSError", msg := "boom" }
    { status := "SKIP", reasons := "", action := "", message := "" }
    file_unterminated rfl

/-- C1 counterexample: for the strip-metadata-only (metaflac) action the
original file is mutated in place, so when the post-strip decode validation
fails the terminal status is FAIL but the original file's bytes have
changed — here the file "fLaC" (an unterminated chain) is emptied by the
strip and is no longer equal to its pre-repair bytes. -/
theorem strip_verify_fail_mutates_original :
    (process_one env_strip_cex args_fix file_unterminated).1 =
      { status := "FAIL", reasons := reason_no_terminator, action := "metaflac", message := "metaflac 清空后仍不可读" } ∧
    (process_one env_strip_cex args_fix file_unterminated).2 ≠ file_unterminated := by
  constructor
  · rfl
  · decide

/-- C10: parse_flac is a total function of a file's byte sequence (truncated
headers, zero-length blocks, truncated STREAMINFO payloads and seeks past
end of file all land in stopping or skipping branches of parse_loop), and
the metadata walk is well-founded because every iteration consumes at least
the 4 header bytes: on a native-FLAC file the walk appends at most
(length - 4) / 4 blocks, and any iteration budget covering the file's length
computes the same probe. -/
theorem parse_flac_total_and_bounded (data : List Nat)
    (h : (parse_flac data).is_flac = true) :
    4 + 4 * (parse_flac data).blocks.length ≤ data.length ∧
    ∀ fuel, data.length ≤ 4 + 4 * fuel →
      parse_loop data fuel 4 [] none 0 0 0 =
        parse_loop data data.length 4 [] none 0 0 0 := by
  by_cases hm : data.take 4 ≠ flac_magic
  · rw [parse_flac, if_pos hm] at h
    simp at h
  · push_neg at hm
    have hlen : 4 ≤ data.length := by
      have h4 := congrArg List.length hm
      simp [List.length_take, flac_magic] at h4
      omega
    constructor
    · rw [parse_flac, if_neg (by simp [hm])]
      have hb := parse_loop_blocks_bound data data.length 4 [] none 0 0 0
      simp only [List.length_nil] at hb ⊢
      omega
    · intro fuel hfuel
      exact parse_loop_fuel_irrel data fuel data.length 4 [] none 0 0 0
        (by omega) (by omega)

/-- Closed witness for parse_flac_total_and_bounded: the minimal one-block
file satisfies the block bound. -/
theorem parse_flac_total_and_bounded_witness :
    4 + 4 * (parse_flac file_min).blocks.length ≤ file_min.length :=
  (parse_flac_total_and_bounded file_min (by decide)).1

/-- C3 (amended): in a parsed native-FLAC file, streamInfo is present if and
only if at least one parsed metadata block — not necessarily the first — is
a type-0 block with payload length exactly 34; in particular it is absent
when no such block exists. -/
theorem streaminfo_iff_some_34_block (data : List Nat) :
    (parse_flac data).streaminfo.isSome = true ↔
      ∃ b ∈ (parse_flac data).blocks, b.type = 0 ∧ b.length = 34 := by
  by_cases hm : data.take 4 ≠ flac_magic
  · rw [parse_flac, if_pos hm]
    simp
  · rw [parse_flac, if_neg hm]
    obtain ⟨suffix, hb, hiff⟩ := parse_loop_streaminfo_iff data data.length 4 [] none 0 0 0
    simp only [hb, hiff]
    simp

/-- C3 counterexample: in file_padding_then_si the first metadata block is a
PADDING block (type 1), yet streamInfo is present, decoded from the later
34-byte type-0 block — refuting "absent whenever the first block is not a
valid 34-byte STREAMINFO". -/
theorem streaminfo_present_without_first_streaminfo :
    ((parse_flac file_padding_then_si).blocks.head?.map MetaBlock.type = some 1) ∧
    (parse_flac file_padding_then_si).streaminfo.isSome = true := by
  constructor <;> decide

/-- Appending to an accumulator under a condition distributes to a
conditional singleton on the right. -/
theorem append_ite_singleton {α : Type} (c : Prop) [Decidable c] (X Y : List α) :
    (if c then X ++ Y else X) = X ++ (if c then Y else []) := by
  split <;> simp

/-- The reasons list built by decide_fix is the concatenation of the five
independent checks, in source order. -/
theorem decide_fix_reasons_eq (probe : FlacProbe) (d k : Bool) (thr cov : Nat)
    (tools : Tools) :
    (decide_fix probe d k thr cov tools).reasons =
      (if d = false then [reason_decode] else []) ++
      (if 0 < probe.unknown_block_count then [reason_unknown_blocks probe.unknown_block_count] else []) ++
      (if probe.last_block_marked = false then [reason_no_terminator] else []) ++
      (if thr < probe.total_meta_bytes_with_headers then [reason_meta_oversize probe.total_meta_bytes_with_headers] else []) ++
      (if cov < probe.picture_bytes_total then [reason_cover_oversize probe.picture_bytes_total cov] else []) := by
  unfold decide_fix
  simp only [append_ite_singleton, List.nil_append]

/-- needs_fix is exactly the non-emptiness of the reasons list. -/
theorem decide_fix_needs_fix_iff (probe : FlacProbe) (d k : Bool) (thr cov : Nat)
    (tools : Tools) :
    (decide_fix probe d k thr cov tools).needs_fix = true ↔
      (decide_fix probe d k thr cov tools).reasons ≠ [] := by
  unfold decide_fix
  simp only [decide_eq_true_eq, List.length_pos]

/-- C5: decide_fix evaluates the five anomaly checks independently and
appends each triggered reason in the fixed detection order — decode failure,
unknown blocks, missing terminator, oversized metadata, oversized cover —
and needsFix holds exactly when the reasons list is non-empty. -/
theorem decide_fix_reasons_order_and_needs_fix (probe : FlacProbe) (d k : Bool)
    (thr cov : Nat) (tools : Tools) :
    (decide_fix probe d k thr cov tools).reasons =
      (if d = false then [reason_decode] else []) ++
      (if 0 < probe.unknown_block_count then [reason_unknown_blocks probe.unknown_block_count] else []) ++
      (if probe.last_block_marked = false then [reason_no_terminator] else []) ++
      (if thr < probe.total_meta_bytes_with_headers then [reason_meta_oversize probe.total_meta_bytes_with_headers] else []) ++
      (if cov < probe.picture_bytes_total then [reason_cover_oversize probe.picture_bytes_total cov] else []) ∧
    ((decide_fix probe d k thr cov tools).needs_fix = true ↔
      (decide_fix probe d k thr cov tools).reasons ≠ []) :=
  ⟨decide_fix_reasons_eq probe d k thr cov tools,
   decide_fix_needs_fix_iff probe d k thr cov tools⟩

/-- Two strings whose first k characters differ are different. -/
theorem string_ne_of_take_ne (a b : String) (k : Nat)
    (h : a.data.take k ≠ b.data.take k) : a ≠ b := fun e => h (by rw [e])

/-- The oversized-metadata reason always starts with the four characters of
its fixed prefix, whatever size is rendered. -/
theorem reason_meta_oversize_take (m : Nat) :
    (reason_meta_oversize m).data.take 4 = ['元', '数', '据', '过'] := by
  rw [reason_meta_oversize, String.data_append]
  rw [List.take_append_of_le_length (by decide)]
  decide

/-- The oversized-metadata reason differs from the decode-failure reason. -/
theorem reason_meta_ne_decode (m : Nat) : reason_meta_oversize m ≠ reason_decode :=
  string_ne_of_take_ne _ _ 4 (by rw [reason_meta_oversize_take]; decide)

/-- The oversized-metadata reason differs from the unknown-blocks reason. -/
theorem reason_meta_ne_unknown (m n : Nat) :
    reason_meta_oversize m ≠ reason_unknown_blocks n := by
  refine string_ne_of_take_ne _ _ 4 ?_
  rw [reason_meta_oversize_take, reason_unknown_blocks]
  simp only [String.data_append, List.append_assoc]
  rw [List.take_append_of_le_length (by decide)]
  decide

/-- The oversized-metadata reason differs from the missing-terminator
reason. -/
theorem reason_meta_ne_no_terminator (m : Nat) :
    reason_meta_oversize m ≠ reason_no_terminator :=
  string_ne_of_take_ne _ _ 4 (by rw [reason_meta_oversize_take]; decide)

/-- The oversized-metadata reason differs from the oversized-cover reason. -/
theorem reason_meta_ne_cover (m n cap : Nat) :
    reason_meta_oversize m ≠ reason_cover_oversize n cap := by
  refine string_ne_of_take_ne _ _ 4 ?_
  rw [reason_meta_oversize_take, reason_cover_oversize]
  simp only [String.data_append, List.append_assoc]
  rw [List.take_append_of_le_length (by decide)]
  decide

/-- C9: decide_fix is monotonic in the metadata threshold — at any threshold
below the probe's totalMetadataBytesWithHeaders the oversized-metadata
reason is in the plan, and raising the threshold strictly above that total
removes it: no oversized-metadata reason text remains, all else equal. -/
theorem raising_meta_threshold_removes_reason (probe : FlacProbe) (d k : Bool)
    (thr_lo thr_hi cov : Nat) (tools : Tools)
    (hlo : thr_lo < probe.total_meta_bytes_with_headers)
    (hhi : probe.total_meta_bytes_with_headers < thr_hi) :
    reason_meta_oversize probe.total_meta_bytes_with_headers ∈
      (decide_fix probe d k thr_lo cov tools).reasons ∧
    ∀ m, reason_meta_oversize m ∉ (decide_fix probe d k thr_hi cov tools).reasons := by
  constructor
  · rw [decide_fix_reasons_eq]
    simp [List.mem_append, hlo]
  · intro m hmem
    rw [decide_fix_reasons_eq] at hmem
    have hD : ¬ (thr_hi < probe.total_meta_bytes_with_headers) := by omega
    rw [if_neg hD] at hmem
    simp only [List.mem_append, List.append_nil] at hmem
    rcases hmem with ((hmem | hmem) | hmem) | hmem <;> revert hmem <;>
      split <;> simp_all [reason_meta_ne_decode m, reason_meta_ne_unknown m,
        reason_meta_ne_no_terminator m, reason_meta_ne_cover m]

/-- Closed witness for raising_meta_threshold_removes_reason at a concrete
probe with 9 MB of metadata and thresholds of 8 MB and 10 MB. -/
theorem raising_meta_threshold_removes_reason_witness :
    reason_meta_oversize 9437184 ∈
      (decide_fix { probe_cover with total_meta_bytes_with_headers := 9437184 } true false 8388608 1572864 { ffmpeg := false, flac := false, metaflac := true }).reasons :=
  (raising_meta_threshold_removes_reason
    { probe_cover with total_meta_bytes_with_headers := 9437184 } true false
    8388608 10485760 1572864 { ffmpeg := false, flac := false, metaflac := true }
    (by decide) (by decide)).1

/-- C4: when the cover-size cap is exceeded and every other anomaly check
passes, and metaflac is installed while neither ffmpeg nor flac is,
decide_fix selects the strip action metaflac, not skip. -/
theorem cover_only_selects_metaflac (probe : FlacProbe) (k : Bool)
    (thr cov : Nat)
    (hcov : cov < probe.picture_bytes_total)
    (hu : probe.unknown_block_count = 0)
    (hl : probe.last_block_marked = true)
    (hm : probe.total_meta_bytes_with_headers ≤ thr) :
    (decide_fix probe true k thr cov { ffmpeg := false, flac := false, metaflac := true }).action = "metaflac" := by
  unfold decide_fix
  simp [hu, hl, hcov, Nat.not_lt.mpr hm]

/-- Closed witness for cover_only_selects_metaflac at the oversized-cover
probe. -/
theorem cover_only_selects_metaflac_witness :
    (decide_fix probe_cover true false 8388608 1572864 { ffmpeg := false, flac := false, metaflac := true }).action = "metaflac" :=
  cover_only_selects_metaflac probe_cover false 8388608 1572864
    (by decide) (by decide) (by decide) (by decide)

/-- The inner restore-and-re-raise step never returns success. -/
theorem ar_inner_fail_not_ok (env : AEnv) (e : PyExc) (fs : AFS) :
    (ar_inner_fail env e fs).1 ≠ .ok () := by
  unfold ar_inner_fail
  split
  · cases env.restore_exc <;> simp
  · simp

/-- A successful move step puts the temp file's bytes at the target. -/
theorem ar_move_ok (env : AEnv) (fs : AFS) :
    (ar_move env fs).1 = .ok () → (ar_move env fs).2.dst = fs.src := by
  unfold ar_move
  cases env.move_exc with
  | some e => exact fun h => absurd h (ar_inner_fail_not_ok env e fs)
  | none =>
    cases hsrc : fs.src with
    | none => exact fun h => absurd h (ar_inner_fail_not_ok env fnf_exc fs)
    | some b =>
      dsimp only
      split <;> cases env.bak_unlink_exc <;> simp_all

/-- The move step cannot succeed when the temp file does not exist. -/
theorem ar_move_src_none (env : AEnv) (fs : AFS) (h : fs.src = none) :
    (ar_move env fs).1 ≠ .ok () := by
  unfold ar_move
  cases env.move_exc with
  | some e => exact ar_inner_fail_not_ok env e fs
  | none => rw [h]; exact ar_inner_fail_not_ok env fnf_exc fs

/-- A successful fallback dance puts the temp file's bytes at the target. -/
theorem ar_fallback_ok (env : AEnv) (fs : AFS) :
    (ar_fallback env fs).1 = .ok () → (ar_fallback env fs).2.dst = fs.src := by
  unfold ar_fallback
  split
  · cases env.rename_aside_exc with
    | some e2 => exact fun h => absurd h (ar_inner_fail_not_ok env e2 fs)
    | none => exact ar_move_ok env _
  · exact ar_move_ok env fs

/-- The fallback dance cannot succeed when the temp file does not exist. -/
theorem ar_fallback_src_none (env : AEnv) (fs : AFS) (h : fs.src = none) :
    (ar_fallback env fs).1 ≠ .ok () := by
  unfold ar_fallback
  split
  · cases env.rename_aside_exc with
    | some e2 => exact ar_inner_fail_not_ok env e2 fs
    | none => exact ar_move_src_none env _ h
  · exact ar_move_src_none env fs h

/-- A successful direct rename puts the temp file's bytes at the target. -/
theorem ar_os_replace_ok (env : AEnv) (fs : AFS) :
    (ar_os_replace env fs).1 = .ok () → (ar_os_replace env fs).2.dst = fs.src := by
  unfold ar_os_replace
  cases env.os_replace_exc with
  | some e =>
    dsimp only
    split
    · exact ar_fallback_ok env fs
    · intro h; simp at h
  | none =>
    cases fs.src with
    | none => intro h; simp at h
    | some b => intro _; rfl

/-- The direct rename cannot succeed when the temp file does not exist. -/
theorem ar_os_replace_src_none (env : AEnv) (fs : AFS) (h : fs.src = none) :
    (ar_os_replace env fs).1 ≠ .ok () := by
  unfold ar_os_replace
  cases env.os_replace_exc with
  | some e =>
    dsimp only
    split
    · exact ar_fallback_src_none env fs h
    · simp
  | none => rw [h]; simp

/-- Success of atomic_replace puts the temp file's bytes at the target. -/
theorem atomic_replace_ok (env : AEnv) (fs : AFS) :
    (atomic_replace env fs).1 = .ok () → (atomic_replace env fs).2.dst = fs.src := by
  unfold atomic_replace
  split
  · cases env.unlink_dst_exc with
    | some e =>
      dsimp only
      split
      · exact ar_fallback_ok env fs
      · intro h; simp at h
    | none => exact ar_os_replace_ok env _
  · exact ar_os_replace_ok env fs

/-- atomic_replace cannot succeed when the temp file does not exist. -/
theorem atomic_replace_src_none (env : AEnv) (fs : AFS) (h : fs.src = none) :
    (atomic_replace env fs).1 ≠ .ok () := by
  unfold atomic_replace
  split
  · cases env.unlink_dst_exc with
    | some e =>
      dsimp only
      split
      · exact ar_fallback_src_none env fs h
      · simp
    | none => exact ar_os_replace_src_none env _ h
  · exact ar_os_replace_src_none env fs h

/-- C2 (amended): on the success path atomic_replace leaves the target
byte-identical to the temp file, under every failure-injection pattern,
including the PermissionError fallback; but if the temp file never existed
the call never succeeds — it raises — and the target's pre-call state is
not preserved in general, since an existing target is deleted before the
rename is attempted, as the counterexample below shows. -/
theorem atomic_replace_contract (env : AEnv) (fs : AFS) :
    ((atomic_replace env fs).1 = .ok () → (atomic_replace env fs).2.dst = fs.src) ∧
    (fs.src = none → (atomic_replace env fs).1 ≠ .ok ()) :=
  ⟨atomic_replace_ok env fs, atomic_replace_src_none env fs⟩

/-- Closed witness for atomic_replace_contract: a clean run moves the temp
bytes into the target, and a run with a missing temp file does not return
success. -/
theorem atomic_replace_contract_witness :
    ((atomic_replace aenv_quiet { src := some [7, 8], dst := some [1], bak := none }).2.dst =
      ({ src := some [7, 8], dst := some [1], bak := none } : AFS).src) ∧
    (atomic_replace aenv_quiet { src := none, dst := some [1], bak := none }).1 ≠ .ok () :=
  ⟨(atomic_replace_contract aenv_quiet { src := some [7, 8], dst := some [1], bak := none }).1 rfl,
   (atomic_replace_contract aenv_quiet { src := none, dst := some [1], bak := none }).2 rfl⟩

/-- C2 counterexample: with the temp file missing and the target present,
atomic_replace deletes the target and then raises FileNotFoundError — the
target ends up missing, not byte-identical to its pre-call state. -/
theorem atomic_replace_missing_temp_deletes_target :
    atomic_replace aenv_quiet { src := none, dst := some [1, 2, 3], bak := none } =
      (.error fnf_exc, { src := none, dst := none, bak := none }) ∧
    (none : Option (List Nat)) ≠ some [1, 2, 3] := by
  constructor
  · rfl
  · decide

set_option maxHeartbeats 1000000 in
/-- C8 (amended): for every 34-byte STREAMINFO payload of real bytes,
decoding the packed big-endian field region — payload bytes 10..18, which is
8 bytes (64 bits) — into (sampleRate, channelCount, bitsPerSample,
totalSamples) and re-encoding those fields reproduces the original 8 raw
bytes of that region. -/
theorem streaminfo_packed_region_roundtrip (payload : List Nat)
    (hlen : payload.length = 34) (hbytes : ∀ b ∈ payload, b < 256) :
    to_bytes_be_8 (encode_streaminfo_fields (decode_streaminfo payload)) =
      packed_region payload := by
  have hrlen : (packed_region payload).length = 8 := by
    simp [packed_region, List.length_take, List.length_drop, hlen]
  have hrbytes : ∀ b ∈ packed_region payload, b < 256 := fun b hb =>
    hbytes b (List.mem_of_mem_drop (List.mem_of_mem_take hb))
  unfold decode_streaminfo
  rw [show (payload.drop 10).take 8 = packed_region payload from rfl]
  rcases hr : packed_region payload with _ | ⟨c0, _ | ⟨c1, _ | ⟨c2, _ | ⟨c3, _ | ⟨c4, _ | ⟨c5, _ | ⟨c6, _ | ⟨c7, rest⟩⟩⟩⟩⟩⟩⟩⟩ <;>
    rw [hr] at hrlen <;>
    simp only [List.length_cons, List.length_nil] at hrlen <;> try omega
  rw [hr] at hrbytes
  have hrest : rest = [] := by
    have h0 : rest.length = 0 := by omega
    exact List.eq_nil_of_length_eq_zero h0
  subst hrest
  have hc0 : c0 < 256 := hrbytes c0 (by simp)
  have hc1 : c1 < 256 := hrbytes c1 (by simp)
  have hc2 : c2 < 256 := hrbytes c2 (by simp)
  have hc3 : c3 < 256 := hrbytes c3 (by simp)
  have hc4 : c4 < 256 := hrbytes c4 (by simp)
  have hc5 : c5 < 256 := hrbytes c5 (by simp)
  have hc6 : c6 < 256 := hrbytes c6 (by simp)
  have hc7 : c7 < 256 := hrbytes c7 (by simp)
  simp only [List.foldl]
  unfold encode_streaminfo_fields to_bytes_be_8
  simp only [Nat.shiftRight_eq_div_pow, Nat.shiftLeft_eq, one_mul]
  simp only [show (7 : Nat) = 2 ^ 3 - 1 from by norm_num,
    show (31 : Nat) = 2 ^ 5 - 1 from by norm_num]
  simp only [Nat.and_pow_two_sub_one_eq_mod]
  norm_num
  omega

/-- Closed witness for streaminfo_packed_region_roundtrip at the payload of
bytes 0..33. -/
theorem streaminfo_packed_region_roundtrip_witness :
    to_bytes_be_8 (encode_streaminfo_fields (decode_streaminfo (List.range 34))) =
      packed_region (List.range 34) :=
  streaminfo_packed_region_roundtrip (List.range 34) (by decide) (by decide)

/-- C8 counterexample: the packed-field region actually decoded is 8 bytes,
not 18 — two 34-byte payloads that differ inside their first 18 bytes decode
to the same StreamInfo, so no re-encoding of the four decoded fields can
reproduce the original 18 raw bytes. -/
theorem streaminfo_no_18_byte_roundtrip :
    decode_streaminfo payload_zero = decode_streaminfo payload_one ∧
    payload_zero.take 18 ≠ payload_one.take 18 ∧
    ¬ ∃ f : StreamInfo → List Nat,
        f (decode_streaminfo payload_zero) = payload_zero.take 18 ∧
        f (decode_streaminfo payload_one) = payload_one.take 18 := by
  refine ⟨by decide, by decide, ?_⟩
  rintro ⟨f, h1, h2⟩
  rw [show decode_streaminfo payload_zero = decode_streaminfo payload_one from by decide] at h1
  rw [h1] at h2
  exact absurd h2 (by decide)

/-- C1 (amended): for the re-encode actions (ffmpeg and flac) the repaired
candidate lives in the scratch directory, so when the post-repair decode
validation fails process_one returns terminal status FAIL with the
verification-failure message and the original file's bytes are unchanged —
the candidate is discarded and never swapped in.  For the
strip-metadata-only (metaflac) action this does not hold: the original is
mutated in place before the post-strip check, as the counterexample above
shows. -/
theorem reencode_verify_fail_leaves_original (env : Env) (args : Args)
    (orig cand cand2 : List Nat) (ct : Option (List Nat)) (iok : Bool)
    (hopen : env.open_exc = none)
    (hflac : (parse_flac orig).is_flac = true)
    (hfix : (planOf env args orig).needs_fix = true)
    (hdry : args.dry_run = false)
    (hbak : (if args.backup then env.backup_exc else none) = none)
    (hexp : (if (planOf env args orig).keep_cover && env.tools.metaflac then env.cover_export orig else .ok none) = .ok ct)
    (hact : (planOf env args orig).action = "ffmpeg" ∨ (planOf env args orig).action = "flac")
    (hre : (if (planOf env args orig).action = "ffmpeg" then env.ffmpeg_run orig else env.flac_run orig) = .ok (true, some cand))
    (himp : (if (planOf env args orig).keep_cover && ct.isSome && env.tools.metaflac then env.cover_import cand (ct.getD []) else .ok (true, cand)) = .ok (iok, cand2))
    (hver : (env.decode cand2).1 = false) :
    (process_one env args orig).1.status = "FAIL" ∧
    (process_one env args orig).1.message = "修复后验证失败: " ++ (env.decode cand2).2 ∧
    (process_one env args orig).2 = orig := by
  unfold planOf at hfix hexp hact hre himp
  rcases hact with hact | hact <;>
    simp only [hact] at hre <;>
    simp at hre hexp himp <;>
    unfold process_one process_one_body after_reencode <;>
    simp [hopen, hflac, hdry, hfix, hbak, hexp, hact, hre, himp, hver]

/-- Closed witness for reencode_verify_fail_leaves_original: an ffmpeg run
whose candidate fails verification reports FAIL and leaves the file as it
was. -/
theorem reencode_verify_fail_leaves_original_witness :
    (process_one env_ffmpeg_w args_fix file_unterminated).1.status = "FAIL" ∧
    (process_one env_ffmpeg_w args_fix file_unterminated).2 = file_unterminated :=
  ⟨(reencode_verify_fail_leaves_original env_ffmpeg_w args_fix file_unterminated
      [9] [9] none true rfl rfl rfl rfl rfl rfl (Or.inl rfl) rfl rfl rfl).1,
   (reencode_verify_fail_leaves_original env_ffmpeg_w args_fix file_unterminated
      [9] [9] none true rfl rfl rfl rfl rfl rfl (Or.inl rfl) rfl rfl rfl).2.2⟩

end FlacFixer
